import Mathlib

/-!
Shallow embedding of the datadirsync-k8s-agent reconciliation agent
(src/agent/main.py and src/operator/main.py).

External effects (the git subprocess calls, the Kubernetes patch API) are
modelled by passing their observable outcomes as explicit arguments: a git
command contributes its exit code and its stdout (already split into lines
or kept as a string, matching the Python call site), and the deployment
patch API is a predicate saying which patch calls succeed.  Python
exceptions are modelled with `Except`; an exception that escapes the agent's
`while` loop is a cycle result whose `looping` field is `false`, because the
`try/except` in `main` wraps the whole loop, so a caught exception still
ends the loop (and `main`).

Python string primitives (`split`, `strip`, `join`) are re-implemented here
over `String.data` by structural recursion, so that every definition
evaluates on concrete inputs inside the kernel.
-/

/-- Worker for `pySplitOn`: scan the character list left to right, cutting
at each leftmost non-overlapping occurrence of `sep`.  `fuel` starts at the
length of the list and strictly bounds the recursion; it is never exhausted
when `sep` is nonempty. -/
def pySplitOnGo (sep : List Char) : Nat → List Char → List Char → List (List Char)
  | _, acc, [] => [acc.reverse]
  | 0, acc, l => [acc.reverse ++ l]
  | fuel + 1, acc, c :: rest =>
    if sep.isPrefixOf (c :: rest) then
      acc.reverse :: pySplitOnGo sep fuel [] (List.drop sep.length (c :: rest))
    else
      pySplitOnGo sep fuel (c :: acc) rest

/-- Python `s.split(sep)` for a nonempty separator `sep`: the pieces of `s`
between leftmost non-overlapping occurrences of `sep`; always nonempty, and
one longer than the number of occurrences of `sep`. -/
def pySplitOn (s : String) (sep : String) : List String :=
  (pySplitOnGo sep.data s.data.length [] s.data).map String.mk

/-- Python `s.strip()`: remove leading and trailing whitespace. -/
def pyStrip (s : String) : String :=
  String.mk (((s.data.dropWhile Char.isWhitespace).reverse.dropWhile
    Char.isWhitespace).reverse)

/-- Worker for `pySplitWs`, accumulating the current token reversed. -/
def pySplitWsGo : List Char → List Char → List String
  | acc, [] => if acc = [] then [] else [String.mk acc.reverse]
  | acc, c :: rest =>
    if c.isWhitespace then
      if acc = [] then pySplitWsGo [] rest
      else String.mk acc.reverse :: pySplitWsGo [] rest
    else
      pySplitWsGo (c :: acc) rest

/-- Python `s.split()` with no argument: split on runs of whitespace and
discard empty pieces. -/
def pySplitWs (s : String) : List String :=
  pySplitWsGo [] s.data

/-- Python `sep.join(l)`. -/
def pyJoin (sep : String) : List String → String
  | [] => ""
  | [x] => x
  | x :: xs => x ++ sep ++ pyJoin sep xs

/-- Errors raised by the probe `get_latest_commit`: the explicit
`Exception("Failed to get latest commit")` raised on a nonzero exit code,
and the `IndexError` raised by `result.stdout.split()[0]` when the output
has no whitespace-delimited token. -/
inductive ProbeError where
  | remoteUnavailable
  | indexError
deriving DecidableEq, Repr

/-- Embedding of `get_latest_commit` (src/agent/main.py:87-102; the same
subprocess call and result handling appear in src/operator/main.py:25-50)
as a function of the observable outcome of
`git ls-remote <url> refs/heads/<branch>`: its exit code and stdout.
A nonzero exit code raises the designated exception; otherwise the first
whitespace-delimited token of stdout is returned, and `split()[0]` on
token-free output raises `IndexError`. -/
def get_latest_commit (returncode : Int) (stdout : String) : Except ProbeError String :=
  if returncode ≠ 0 then
    .error .remoteUnavailable
  else
    match pySplitWs stdout with
    | [] => .error .indexError
    | tok :: _ => .ok tok

/-- Embedding of `get_changed_files` (src/agent/main.py:104-124) as a
function of the outcome of `git show --name-only <commit>`: its exit code
and its stdout already split into lines (Python `splitlines()`).  A nonzero
exit code raises; otherwise the code returns
`result.stdout.splitlines()[6:]`, i.e. it drops exactly the first six
lines, whatever they contain. -/
def get_changed_files (returncode : Int) (stdoutLines : List String) :
    Except Unit (List String) :=
  if returncode ≠ 0 then .error ()
  else .ok (stdoutLines.drop 6)

/-- The routing table (`artifact_to_deployment_map`), a Python dict loaded
from YAML: an association list with unique keys, each key mapping to a list
of deployment names. -/
abbrev RoutingTable := List (String × List String)

/-- Python `map[k]` for a present key, defaulting to `[]`. -/
def lookupTargets (m : RoutingTable) (k : String) : List String :=
  match m.lookup k with
  | some ts => ts
  | none => []

/-- Python `k in map`. -/
def hasKey (m : RoutingTable) (k : String) : Bool :=
  (m.lookup k).isSome

/-- Python `changed_file.split('/')[0]`: the text before the first `/`, or
the whole string when there is no `/`. -/
def topFolder (p : String) : String :=
  (pySplitOn p "/").headD ""

/-- Python `set.update`, modelled on lists: add each element of `ts` not
already present, keeping first-insertion order.  The Python function
accumulates into a `set` and hands `list(set)` to the caller; the set's
enumeration order is unspecified, and this model fixes it to
first-insertion order. -/
def updateTargets (acc : List String) : List String → List String
  | [] => acc
  | t :: ts => if t ∈ acc then updateTargets acc ts else updateTargets (acc ++ [t]) ts

/-- The body of the `for changed_file in changed_files` loop of
`determine_affected_deployments` (src/agent/main.py:135-143): union in the
targets of the file itself when it is a key, then the targets of its
top-level folder when that is a key. -/
def fileStep (m : RoutingTable) (acc : List String) (changed_file : String) :
    List String :=
  let acc1 :=
    if hasKey m changed_file then updateTargets acc (lookupTargets m changed_file)
    else acc
  if hasKey m (topFolder changed_file) then
    updateTargets acc1 (lookupTargets m (topFolder changed_file))
  else acc1

/-- Embedding of `determine_affected_deployments` (src/agent/main.py:126-145):
seed the accumulator with the wildcard key's targets when `'*'` is present,
then fold the per-file step over the changed files.  The result is the
Python `list(set)` in first-insertion order. -/
def determine_affected_deployments (changed_files : List String) (m : RoutingTable) :
    List String :=
  let base := if hasKey m "*" then updateTargets [] (lookupTargets m "*") else []
  changed_files.foldl (fileStep m) base

/-- Outcome of one run of `trigger_rollout`: the deployment names for which
a patch call was issued, those whose patch call succeeded, and whether the
whole loop finished without an exception.  A failing patch call raises, so
the Python `for` loop stops at the first failure. -/
structure RolloutResult where
  attempted : List String
  succeeded : List String
  ok : Bool
deriving DecidableEq, Repr

/-- The `for deployment_name in deployment_name_list` loop of
`trigger_rollout`: strip each name, issue the patch call, and propagate the
first exception. -/
def rolloutLoop (patchOk : String → Bool) : List String → RolloutResult
  | [] => ⟨[], [], true⟩
  | name :: rest =>
    let n := pyStrip name
    if patchOk n then
      let r := rolloutLoop patchOk rest
      ⟨n :: r.attempted, n :: r.succeeded, r.ok⟩
    else
      ⟨[n], [], false⟩

/-- Embedding of `trigger_rollout` (src/agent/main.py:147-155, identical in
src/operator/main.py:65-72): split the comma-joined deployment-name string,
strip each name, and patch each deployment in turn.  `patchOk` models the
Kubernetes API: which patch calls succeed.  The namespace argument only
routes the patch call and carries no logic, so it is dropped here. -/
def trigger_rollout (patchOk : String → Bool) (deployment_names : String) :
    RolloutResult :=
  rolloutLoop patchOk (pySplitOn deployment_names ",")

/-- Outcome of one iteration of the agent's `while True` loop body
(src/agent/main.py:181-191) together with what the surrounding `try/except`
(lines 176-193) does to an escaping exception: `looping = true` means the
loop proceeds to the next sleep; `looping = false` means an exception
escaped the loop body, was caught and logged at line 192, and `main`
returned — the loop is over.  `latest` is the value of `latest_commit`
after the iteration. -/
structure CycleResult where
  looping : Bool
  latest : String
  attempted : List String
  succeeded : List String
deriving DecidableEq, Repr

/-- Embedding of one iteration of the agent reconciliation loop
(src/agent/main.py:181-191).  The observable outcomes of the external calls
are arguments: `probe` is what `get_latest_commit` produced this cycle,
`diffRc`/`diffLines` the exit code and stdout lines of the `git show` run
by `get_changed_files`, and `patchOk` the Kubernetes patch API.  The Python
`','.join` / `split(',')` round trip between `main` and `trigger_rollout`
is reproduced. -/
def runCycle (m : RoutingTable) (probe : Except ProbeError String)
    (diffRc : Int) (diffLines : List String) (patchOk : String → Bool)
    (latest_commit : String) : CycleResult :=
  match probe with
  | .error _ => ⟨false, latest_commit, [], []⟩
  | .ok new_commit =>
    if new_commit = latest_commit then ⟨true, latest_commit, [], []⟩
    else
      match get_changed_files diffRc diffLines with
      | .error _ => ⟨false, latest_commit, [], []⟩
      | .ok changed_files =>
        let affected := determine_affected_deployments changed_files m
        if affected = [] then ⟨true, new_commit, [], []⟩
        else
          let r := trigger_rollout patchOk (pyJoin "," affected)
          if r.ok then ⟨true, new_commit, r.attempted, r.succeeded⟩
          else ⟨false, latest_commit, r.attempted, r.succeeded⟩

/-- Embedding of one iteration of the operator loop
(src/operator/main.py:92-98).  The operator has no `try/except` at all, so
an exception from `get_latest_commit` or from a patch call escapes `main`
and kills the process (`looping = false`). -/
def operatorCycle (probe : Except ProbeError String) (patchOk : String → Bool)
    (rollout_deployments : String) (last_commit : String) : CycleResult :=
  match probe with
  | .error _ => ⟨false, last_commit, [], []⟩
  | .ok new_commit =>
    if new_commit = last_commit then ⟨true, last_commit, [], []⟩
    else
      let r := trigger_rollout patchOk rollout_deployments
      if r.ok then ⟨true, new_commit, r.attempted, r.succeeded⟩
      else ⟨false, last_commit, r.attempted, r.succeeded⟩

/-- Embedding of `determine_repo_url` (src/agent/main.py:74-85).  Python
truthiness of a string is nonemptiness; the tuple unpacking
`protocol, repo_path = git_url.split("://")` raises `ValueError` unless the
split yields exactly two parts. -/
def determine_repo_url (git_url git_username git_token git_ssh_command : String) :
    Except Unit String :=
  if git_ssh_command ≠ "" then .ok git_url
  else if git_username ≠ "" ∧ git_token ≠ "" then
    match pySplitOn git_url "://" with
    | [protocol, repo_path] =>
      .ok (protocol ++ "://" ++ git_username ++ ":" ++ git_token ++ "@" ++ repo_path)
    | _ => .error ()
  else .ok git_url

/-- Python `s.count(sep)`: the number of non-overlapping occurrences of
`sep` in `s`, recovered from the split. -/
def sepCount (s sep : String) : Nat :=
  (pySplitOn s sep).length - 1

/-- Membership in the model of `set.update`. -/
lemma mem_updateTargets : ∀ (ts acc : List String) (x : String),
    x ∈ updateTargets acc ts ↔ x ∈ acc ∨ x ∈ ts := by
  intro ts
  induction ts with
  | nil => intro acc x; simp [updateTargets]
  | cons t ts ih =>
    intro acc x
    by_cases h : t ∈ acc
    · rw [updateTargets, if_pos h, ih]
      constructor
      · rintro (hx | hx)
        · exact Or.inl hx
        · exact Or.inr (List.mem_cons_of_mem t hx)
      · rintro (hx | hx)
        · exact Or.inl hx
        · rcases List.mem_cons.mp hx with rfl | hx
          · exact Or.inl h
          · exact Or.inr hx
    · rw [updateTargets, if_neg h, ih]
      simp [List.mem_append, List.mem_cons, or_assoc]

/-- The model of `set.update` never introduces duplicates. -/
lemma nodup_updateTargets : ∀ (ts acc : List String),
    acc.Nodup → (updateTargets acc ts).Nodup := by
  intro ts
  induction ts with
  | nil => intro acc h; simpa [updateTargets] using h
  | cons t ts ih =>
    intro acc h
    by_cases ht : t ∈ acc
    · rw [updateTargets, if_pos ht]; exact ih acc h
    · rw [updateTargets, if_neg ht]
      exact ih (acc ++ [t]) (by simp [List.nodup_append, h, ht])

/-- Membership after one iteration of the per-file loop. -/
lemma mem_fileStep (m : RoutingTable) (acc : List String) (f x : String) :
    x ∈ fileStep m acc f ↔
      x ∈ acc ∨ (hasKey m f = true ∧ x ∈ lookupTargets m f) ∨
        (hasKey m (topFolder f) = true ∧ x ∈ lookupTargets m (topFolder f)) := by
  unfold fileStep
  by_cases h1 : hasKey m f <;> by_cases h2 : hasKey m (topFolder f) <;>
    simp [h1, h2, mem_updateTargets] <;> tauto

/-- The per-file loop preserves freedom from duplicates. -/
lemma nodup_fileStep (m : RoutingTable) (acc : List String) (f : String)
    (h : acc.Nodup) : (fileStep m acc f).Nodup := by
  unfold fileStep
  by_cases h1 : hasKey m f <;> by_cases h2 : hasKey m (topFolder f) <;>
    simp [h1, h2] <;> solve
  | exact nodup_updateTargets _ _ (nodup_updateTargets _ _ h)
  | exact nodup_updateTargets _ _ h
  | exact h

/-- Membership in the whole `for changed_file in changed_files` fold. -/
lemma mem_foldl_fileStep (m : RoutingTable) : ∀ (l acc : List String) (x : String),
    x ∈ l.foldl (fileStep m) acc ↔
      x ∈ acc ∨ ∃ f ∈ l, (hasKey m f = true ∧ x ∈ lookupTargets m f) ∨
        (hasKey m (topFolder f) = true ∧ x ∈ lookupTargets m (topFolder f)) := by
  intro l
  induction l with
  | nil => intro acc x; simp
  | cons f l ih =>
    intro acc x
    rw [List.foldl_cons, ih, mem_fileStep]
    simp only [List.mem_cons]
    constructor
    · rintro ((hx | hx) | ⟨g, hg, hp⟩)
      · exact Or.inl hx
      · exact Or.inr ⟨f, Or.inl rfl, hx⟩
      · exact Or.inr ⟨g, Or.inr hg, hp⟩
    · rintro (hx | ⟨g, rfl | hg, hp⟩)
      · exact Or.inl (Or.inl hx)
      · exact Or.inl (Or.inr hp)
      · exact Or.inr ⟨g, hg, hp⟩

/-- The fold preserves freedom from duplicates. -/
lemma nodup_foldl_fileStep (m : RoutingTable) : ∀ (l acc : List String),
    acc.Nodup → (l.foldl (fileStep m) acc).Nodup := by
  intro l
  induction l with
  | nil => intro acc h; simpa using h
  | cons f l ih => intro acc h; exact ih _ (nodup_fileStep m acc f h)

/-- Membership characterization of `determine_affected_deployments`. -/
lemma mem_determine_affected (files : List String) (m : RoutingTable) (x : String) :
    x ∈ determine_affected_deployments files m ↔
      (hasKey m "*" = true ∧ x ∈ lookupTargets m "*") ∨
        ∃ f ∈ files, (hasKey m f = true ∧ x ∈ lookupTargets m f) ∨
          (hasKey m (topFolder f) = true ∧ x ∈ lookupTargets m (topFolder f)) := by
  unfold determine_affected_deployments
  rw [mem_foldl_fileStep]
  by_cases h : hasKey m "*" <;> simp [h, mem_updateTargets]

/-- The list returned by `determine_affected_deployments` never repeats a
deployment name. -/
lemma nodup_determine_affected (files : List String) (m : RoutingTable) :
    (determine_affected_deployments files m).Nodup := by
  unfold determine_affected_deployments
  apply nodup_foldl_fileStep
  by_cases h : hasKey m "*" <;> simp [h]
  exact nodup_updateTargets _ _ List.nodup_nil

/-- C1: for every RoutingTable and ChangeSet, `determine_affected_deployments`
returns exactly the union of the target sets of every changed path that is a
routing key, the target sets of every path's first segment that is a routing
key, and the wildcard key's target set when `'*'` is present, with no
duplicates; in particular the routing table
`{"infra": ["svcA"], "*": ["svcGlobal"]}` with change set
`["infra/deploy.yaml"]` resolves to the target set `{"svcA", "svcGlobal"}`. -/
theorem determine_affected_deployments_union_spec :
    (∀ (m : RoutingTable) (files : List String) (t : String),
        t ∈ determine_affected_deployments files m ↔
          (hasKey m "*" = true ∧ t ∈ lookupTargets m "*") ∨
            ∃ f ∈ files, (hasKey m f = true ∧ t ∈ lookupTargets m f) ∨
              (hasKey m (topFolder f) = true ∧ t ∈ lookupTargets m (topFolder f))) ∧
    (∀ (m : RoutingTable) (files : List String),
        (determine_affected_deployments files m).Nodup) ∧
    List.Perm
      (determine_affected_deployments ["infra/deploy.yaml"]
        [("infra", ["svcA"]), ("*", ["svcGlobal"])])
      ["svcA", "svcGlobal"] :=
  ⟨fun m files t => mem_determine_affected files m t,
   fun m files => nodup_determine_affected files m,
   by
    show List.Perm ["svcGlobal", "svcA"] ["svcA", "svcGlobal"]
    exact List.Perm.swap _ _ _⟩

/-- C2 (code bug): `get_changed_files` separates the changed-path list from
the commit metadata by dropping a fixed six leading lines, so for a commit
whose message spans three lines the third message line and the blank
separator line leak into the returned "changed files". -/
theorem get_changed_files_positional_skip_leaks_metadata :
    get_changed_files 0
        ["commit 1234abcd", "Author: Dev <dev@example.com>",
         "Date:   Mon Oct 6 2025", "", "    msg line 1", "    msg line 2",
         "    msg line 3", "", "config/file.yaml"] =
      .ok ["    msg line 3", "", "config/file.yaml"] := rfl

/-- C3 (code bug): when the patch call for the first dispatched target
raises, the exception aborts `trigger_rollout`, escapes the `while` loop,
and is only caught outside it, so the remaining target never receives its
restart marker, `latest_commit` stays at the old revision, and the loop
ends. -/
theorem dispatch_failure_halts_loop_without_revision_update :
    runCycle [("*", ["svcA", "svcB"])] (.ok "rev1") 0
        ["commit 1234abcd", "Author: Dev <dev@example.com>",
         "Date:   Mon Oct 6 2025", "", "    update infra", "", "infra/x.yaml"]
        (fun s => s ≠ "svcA") "rev0" =
      ⟨false, "rev0", ["svcA"], []⟩ := by decide

/-- C4 (code bug): a transient probe failure ends the reconciliation loop
instead of returning it to the waiting state — the agent's `try/except`
wraps the whole `while` loop, and the operator has no handler at all; the
last known revision is left unchanged. -/
theorem probe_failure_terminates_loop :
    runCycle [("*", ["svcGlobal"])] (.error .remoteUnavailable) 0 []
        (fun _ => true) "rev0" = ⟨false, "rev0", [], []⟩ ∧
    operatorCycle (.error .remoteUnavailable) (fun _ => true) "nginx" "rev0" =
      ⟨false, "rev0", [], []⟩ :=
  ⟨rfl, rfl⟩

/-- C5: if the routing table contains the wildcard key `'*'`, then
resolution on any non-empty change set includes every one of the wildcard
key's targets, whatever the changed paths are. -/
theorem wildcard_included_on_nonempty_changeset
    (m : RoutingTable) (files ts : List String) (t : String)
    (hw : m.lookup "*" = some ts) (hne : files ≠ []) (ht : t ∈ ts) :
    t ∈ determine_affected_deployments files m := by
  rw [mem_determine_affected]
  refine Or.inl ⟨?_, ?_⟩
  · unfold hasKey; rw [hw]; rfl
  · unfold lookupTargets; rw [hw]; exact ht

/-- Witness for C5 at a concrete routing table and change set. -/
theorem wildcard_included_on_nonempty_changeset_witness :
    "svcGlobal" ∈ determine_affected_deployments ["readme.md"]
      [("infra", ["svcA"]), ("*", ["svcGlobal"])] :=
  wildcard_included_on_nonempty_changeset _ _ ["svcGlobal"] _ rfl
    (by decide) (by decide)

/-- C6: the resolved target set depends only on the set of paths in the
change set — change sets with the same members resolve to the same target
set — duplicated entries resolve like the deduplicated list, and the result
never repeats a target. -/
theorem resolve_depends_only_on_path_set :
    (∀ (m : RoutingTable) (l1 l2 : List String),
        (∀ x, x ∈ l1 ↔ x ∈ l2) →
          (determine_affected_deployments l1 m).toFinset =
            (determine_affected_deployments l2 m).toFinset) ∧
    determine_affected_deployments ["a.txt", "a.txt"] [("a.txt", ["svcX"])] = ["svcX"] ∧
    determine_affected_deployments ["a.txt"] [("a.txt", ["svcX"])] = ["svcX"] ∧
    (∀ (m : RoutingTable) (l : List String),
        (determine_affected_deployments l m).Nodup) := by
  refine ⟨?_, by decide, by decide, fun m l => nodup_determine_affected l m⟩
  intro m l1 l2 hmem
  ext x
  simp only [List.mem_toFinset]
  rw [mem_determine_affected, mem_determine_affected]
  constructor
  · rintro (h | ⟨f, hf, hp⟩)
    · exact Or.inl h
    · exact Or.inr ⟨f, (hmem f).mp hf, hp⟩
  · rintro (h | ⟨f, hf, hp⟩)
    · exact Or.inl h
    · exact Or.inr ⟨f, (hmem f).mpr hf, hp⟩

/-- Witness for C6: a transposed change set resolves to the same target
set. -/
theorem resolve_depends_only_on_path_set_witness :
    (determine_affected_deployments ["b.txt", "a.txt"] [("a.txt", ["svcX"])]).toFinset =
      (determine_affected_deployments ["a.txt", "b.txt"] [("a.txt", ["svcX"])]).toFinset :=
  resolve_depends_only_on_path_set.1 _ _ _ (fun x => by
    simp only [List.mem_cons, List.not_mem_nil, or_false]
    exact or_comm)

/-- C7: whenever resolution of the cycle's changed files yields no targets,
the dispatcher is not invoked during that cycle — no patch call is issued;
in particular `{"app/config.yaml": ["svcB"]}` with change set
`["readme.md"]` resolves to no targets. -/
theorem empty_targetset_skips_dispatcher :
    (∀ (m : RoutingTable) (probe : Except ProbeError String) (rc : Int)
        (lines : List String) (patchOk : String → Bool) (latest : String),
        determine_affected_deployments (lines.drop 6) m = [] →
          (runCycle m probe rc lines patchOk latest).attempted = []) ∧
    determine_affected_deployments ["readme.md"] [("app/config.yaml", ["svcB"])] = [] := by
  refine ⟨?_, by decide⟩
  intro m probe rc lines patchOk latest h
  cases probe with
  | error e => rfl
  | ok nc =>
    unfold runCycle
    by_cases hnc : nc = latest
    · simp [hnc]
    · simp only [if_neg hnc]
      unfold get_changed_files
      by_cases hrc : rc ≠ 0
      · simp [hrc]
      · simp [hrc, h]

/-- Witness for C7 at a concrete unmatched change. -/
theorem empty_targetset_skips_dispatcher_witness :
    (runCycle [("app/config.yaml", ["svcB"])] (.ok "r1") 0
        ["commit 99", "Author: Dev", "Date: today", "", "    docs", "", "readme.md"]
        (fun _ => true) "r0").attempted = [] :=
  empty_targetset_skips_dispatcher.1 _ _ _ _ _ _ (by decide)

/-- C8 counterexample: when the probe command exits with status 0 but
prints nothing — which is what `git ls-remote <url> refs/heads/<branch>`
does when the remote is reachable but the branch does not exist — the code
raises `IndexError` from `split()[0]`, not the designated failure. -/
theorem missing_branch_not_remote_unavailable :
    get_latest_commit 0 "" = .error .indexError ∧
    (Except.error ProbeError.indexError : Except ProbeError String) ≠
      .error .remoteUnavailable := by
  refine ⟨rfl, fun h => ?_⟩
  injection h with h2
  exact ProbeError.noConfusion h2

/-- C8 (amended): the probe fails with the designated error exactly when the
command exits nonzero (remote unreachable); when the command exits zero but
prints no token — the missing-branch case — it raises an unhandled
`IndexError` instead; on success it returns the first whitespace-delimited
token of the output. -/
theorem get_latest_commit_error_modes :
    (∀ (rc : Int) (out : String), rc ≠ 0 →
        get_latest_commit rc out = .error .remoteUnavailable) ∧
    (∀ out : String, pySplitWs out = [] →
        get_latest_commit 0 out = .error .indexError) ∧
    (∀ (out tok : String) (rest : List String), pySplitWs out = tok :: rest →
        get_latest_commit 0 out = .ok tok) := by
  refine ⟨?_, ?_, ?_⟩
  · intro rc out h
    unfold get_latest_commit
    rw [if_pos h]
  · intro out h
    unfold get_latest_commit
    rw [if_neg (fun hc => hc rfl), h]
  · intro out tok rest h
    unfold get_latest_commit
    rw [if_neg (fun hc => hc rfl), h]

/-- Witness for the amended C8 at concrete command outcomes. -/
theorem get_latest_commit_error_modes_witness :
    get_latest_commit 1 "fatal: repo not found" = .error .remoteUnavailable ∧
    get_latest_commit 0 "" = .error .indexError ∧
    get_latest_commit 0 "abc123\trefs/heads/main\n" = .ok "abc123" :=
  ⟨get_latest_commit_error_modes.1 1 "fatal: repo not found" (by decide),
   get_latest_commit_error_modes.2.1 "" rfl,
   get_latest_commit_error_modes.2.2 "abc123\trefs/heads/main\n" "abc123"
     ["refs/heads/main"] rfl⟩

/-- C9: authentication mode is selected by which credential fields are
non-empty — a non-empty SSH command leaves the URL verbatim regardless of
username/token; otherwise a non-empty username and token embed
`username:token@` after the `://` separator; otherwise the URL is used
verbatim. -/
theorem determine_repo_url_auth_modes :
    (∀ url user token ssh : String, ssh ≠ "" →
        determine_repo_url url user token ssh = .ok url) ∧
    (∀ url user token p r : String, user ≠ "" → token ≠ "" →
        pySplitOn url "://" = [p, r] →
          determine_repo_url url user token "" =
            .ok (p ++ "://" ++ user ++ ":" ++ token ++ "@" ++ r)) ∧
    (∀ url user token : String, user = "" ∨ token = "" →
        determine_repo_url url user token "" = .ok url) := by
  refine ⟨?_, ?_, ?_⟩
  · intro url user token ssh h
    unfold determine_repo_url
    rw [if_pos h]
  · intro url user token p r hu ht hs
    unfold determine_repo_url
    rw [if_neg (fun hc => hc rfl), if_pos ⟨hu, ht⟩, hs]
  · intro url user token h
    unfold determine_repo_url
    rw [if_neg (fun hc => hc rfl)]
    rcases h with h | h
    · rw [if_neg (fun hc => hc.1 h)]
    · rw [if_neg (fun hc => hc.2 h)]

/-- Witness for C9: the three modes at concrete credentials. -/
theorem determine_repo_url_auth_modes_witness :
    determine_repo_url "https://example.com/r.git" "u" "t" "ssh -i /key" =
      .ok "https://example.com/r.git" ∧
    determine_repo_url "https://example.com/r.git" "u" "t" "" =
      .ok "https://u:t@example.com/r.git" ∧
    determine_repo_url "https://example.com/r.git" "u" "" "" =
      .ok "https://example.com/r.git" :=
  ⟨determine_repo_url_auth_modes.1 _ _ _ _ (by decide),
   determine_repo_url_auth_modes.2.1 "https://example.com/r.git" "u" "t"
     "https" "example.com/r.git" (by decide) (by decide) (by decide),
   determine_repo_url_auth_modes.2.2 _ _ _ (Or.inr rfl)⟩

/-- C10: with the SSH command empty and both username and token non-empty,
`determine_repo_url` returns normally exactly when the URL contains the
separator `://` exactly once (the split yields two parts); an SCP-style URL
such as `git@host:path` makes it raise `ValueError` instead of returning. -/
theorem determine_repo_url_requires_single_separator :
    (∀ url user token : String, user ≠ "" → token ≠ "" →
        ((determine_repo_url url user token "").isOk = true ↔
          sepCount url "://" = 1)) ∧
    determine_repo_url "git@host:path" "u" "t" "" = .error () := by
  refine ⟨?_, rfl⟩
  intro url user token hu ht
  unfold determine_repo_url sepCount
  rw [if_neg (fun hc => hc rfl), if_pos ⟨hu, ht⟩]
  rcases hs : pySplitOn url "://" with _ | ⟨a, _ | ⟨b, _ | ⟨c, rest⟩⟩⟩ <;>
    simp [Except.isOk, Except.toBool]

/-- Witness for C10 at the SCP-style URL from the claim. -/
theorem determine_repo_url_requires_single_separator_witness :
    (determine_repo_url "git@host:path" "u" "t" "").isOk = true ↔
      sepCount "git@host:path" "://" = 1 :=
  determine_repo_url_requires_single_separator.1 _ _ _ (by decide) (by decide)
